import Mathlib

/-!
Shallow embedding of the Budget Tracker single-page application
(`budget_planner/client/src/App.jsx`): the transaction ledger, the budget
table, the aggregation computations and the month selector, together with
proofs of their specified properties.

Modelling conventions:
* JavaScript numbers are modelled as `ℚ` (all the amounts and limits the
  claims touch are exact decimal values, and every comparison in the code
  is an exact comparison).
* The `Date.now()` / `new Date().toISOString()` timestamps are passed in
  explicitly (`now : ℕ`); a transaction's `date` is modelled by the pair of
  calendar fields the code actually reads back (`getMonth`, `getFullYear`).
* Fallible operations (`JSON.parse`, `parseFloat` producing `NaN`) are
  modelled with `Option`.
-/

namespace BudgetTracker

/-- The fixed category enumeration (the option values of the category
select and the keys of the `budgets` object). -/
inductive Category where
  | food
  | housing
  | transportation
  | utilities
  | entertainment
  | healthcare
  | shopping
  | other
deriving DecidableEq

/-- Transaction direction: the `type` field, either `'income'` or
`'expense'`. -/
inductive TxType where
  | income
  | expense
deriving DecidableEq

/-- The calendar fields of a stored `date` that the application reads back:
`new Date(expense.date).getMonth()` and `.getFullYear()`. -/
structure DateVal where
  month : ℕ
  year : ℤ
deriving DecidableEq

/-- A ledger record, as built by `handleAddExpense`:
`{ id, description, amount, category, type, date }`, with the optional
`updatedAt` added by `updateExpense`. -/
structure Transaction where
  id : ℕ
  description : String
  amount : ℚ
  category : Category
  type : TxType
  date : DateVal
  updatedAt : Option ℕ
deriving DecidableEq

/-- The `updates` object dispatched with an `UPDATE_EXPENSE` action: an
arbitrary subset of the mutable fields (a JavaScript object spread merges
exactly the keys present). -/
structure Updates where
  description : Option String
  amount : Option ℚ
  category : Option Category
  type : Option TxType
  date : Option DateVal
  updatedAt : Option ℕ
deriving DecidableEq

/-- Actions understood by `expenseReducer`.  `init` stands for any action
type not named in the `switch` (such as the `'INIT'` dispatched on load),
which falls through to the `default` branch. -/
inductive Action where
  | addExpense (payload : Transaction)
  | deleteExpense (payload : ℕ)
  | updateExpense (id : ℕ) (updates : Updates)
  | init (payload : List Transaction)

/-- The object spread `{ ...expense, ...updates }`: every key present in
`updates` overwrites the record's value, every absent key keeps it. -/
def applyUpdates (e : Transaction) (u : Updates) : Transaction :=
  { e with
    description := u.description.getD e.description
    amount := u.amount.getD e.amount
    category := u.category.getD e.category
    type := u.type.getD e.type
    date := u.date.getD e.date
    updatedAt := match u.updatedAt with
      | some t => some t
      | none => e.updatedAt }

/-- The `expenseReducer` of App.jsx: append on `ADD_EXPENSE`, filter on
`DELETE_EXPENSE`, map-and-merge on `UPDATE_EXPENSE`, and return the state
unchanged on any other action. -/
def expenseReducer (state : List Transaction) : Action → List Transaction
  | .addExpense payload => state ++ [payload]
  | .deleteExpense payload => state.filter (fun e => decide (e.id ≠ payload))
  | .updateExpense i u =>
      state.map (fun e => if e.id = i then applyUpdates e u else e)
  | .init _ => state

/-- Digit run read as a natural number, most significant digit first. -/
def digitsToNat (ds : List Char) : ℕ :=
  ds.foldl (fun n c => 10 * n + (c.toNat - 48)) 0

/-- Powers of ten in `ℚ`. -/
def pow10 (n : ℕ) : ℚ := (10 : ℚ) ^ n

/-- The ASCII whitespace characters `parseFloat` skips. -/
def jsWhitespace (c : Char) : Bool :=
  c = ' ' || c = '\t' || c = '\n' || c = '\r' || c = '\x0b' || c = '\x0c'

/-- Model of the JavaScript `parseFloat` builtin on finite decimal
literals: skip leading whitespace, read an optional sign, then the longest
prefix of the form `digits [. digits] [(e|E) [sign] digits]` (also
`.digits`), and ignore the rest of the string.  `none` models `NaN`, which
is returned exactly when no digit is read before the rest of the string.
(The special `Infinity` spelling is not modelled; no caller feeds it.) -/
def parseFloat (s : String) : Option ℚ :=
  let cs : List Char := s.toList.dropWhile jsWhitespace
  let neg : Bool := cs.head? == some '-'
  let cs1 : List Char :=
    if cs.head? == some '+' || cs.head? == some '-' then cs.tail else cs
  let intDs : List Char := cs1.takeWhile Char.isDigit
  let rest1 : List Char := cs1.drop intDs.length
  let hasDot : Bool := rest1.head? == some '.'
  let afterDot : List Char := if hasDot then rest1.tail else []
  let fracDs : List Char := afterDot.takeWhile Char.isDigit
  let rest2 : List Char :=
    if hasDot then afterDot.drop fracDs.length else rest1
  if intDs.isEmpty && (!hasDot || fracDs.isEmpty) then none
  else
    let mant : ℚ :=
      (digitsToNat intDs : ℚ) + (digitsToNat fracDs : ℚ) / pow10 fracDs.length
    let signed : ℚ := if neg then -mant else mant
    let hasExp : Bool := rest2.head? == some 'e' || rest2.head? == some 'E'
    let expBody : List Char := if hasExp then rest2.tail else []
    let eneg : Bool := expBody.head? == some '-'
    let eb1 : List Char :=
      if expBody.head? == some '+' || expBody.head? == some '-' then
        expBody.tail
      else expBody
    let expDs : List Char := eb1.takeWhile Char.isDigit
    if hasExp && !expDs.isEmpty then
      some (if eneg then signed / pow10 (digitsToNat expDs)
            else signed * pow10 (digitsToNat expDs))
    else some signed

/-- Model of the JavaScript `String.prototype.trim`: strip the leading and
trailing whitespace characters (restricted to the ASCII whitespace set, the
only one the claims exercise). -/
def jsTrim (s : String) : String :=
  String.mk
    (((s.toList.dropWhile jsWhitespace).reverse.dropWhile jsWhitespace).reverse)

/-- The add/edit form fields feeding `handleAddExpense` and
`updateExpense`: the `description` and `amount` text inputs and the
`category` and `type` selectors. -/
structure FormState where
  description : String
  amount : String
  category : Category
  type : TxType

/-- The validation gate shared by `handleAddExpense` and `updateExpense`:
`description.trim() && amount && !isNaN(parseFloat(amount))` —
the trimmed description is non-empty, the amount string is non-empty, and
`parseFloat` does not give `NaN`. -/
def addGate (fs : FormState) : Prop :=
  jsTrim fs.description ≠ "" ∧ fs.amount ≠ "" ∧ (parseFloat fs.amount).isSome

instance (fs : FormState) : Decidable (addGate fs) := by
  unfold addGate; infer_instance

/-- The `handleAddExpense` handler: when the gate passes, dispatch
`ADD_EXPENSE` with a fresh record whose `id` is `Date.now()` (passed as
`now`) and whose `date` is the current date (passed as `d`); otherwise do
nothing. -/
def handleAddExpense (fs : FormState) (now : ℕ) (d : DateVal)
    (state : List Transaction) : List Transaction :=
  if addGate fs then
    expenseReducer state (.addExpense
      { id := now
        description := fs.description
        amount := (parseFloat fs.amount).getD 0
        category := fs.category
        type := fs.type
        date := d
        updatedAt := none })
  else state

/-- JavaScript truthiness of the `editingExpenseId` state
(`number | null`): `null` and `0` are falsy. -/
def idTruthy : Option ℕ → Prop
  | none => False
  | some i => i ≠ 0

instance (o : Option ℕ) : Decidable (idTruthy o) := by
  cases o <;> unfold idTruthy <;> infer_instance

/-- The `updateExpense` handler: when the gate passes and an expense is
being edited, dispatch `UPDATE_EXPENSE` with updates carrying the four form
fields plus a fresh `updatedAt` timestamp (passed as `nowEdit`); the
`id` and `date` keys are not part of the updates object. -/
def updateExpense (fs : FormState) (editingExpenseId : Option ℕ)
    (nowEdit : ℕ) (state : List Transaction) : List Transaction :=
  if addGate fs ∧ idTruthy editingExpenseId then
    expenseReducer state (.updateExpense (editingExpenseId.getD 0)
      { description := some fs.description
        amount := some ((parseFloat fs.amount).getD 0)
        category := some fs.category
        type := some fs.type
        date := none
        updatedAt := some nowEdit })
  else state

/-- The `updateBudget` handler: parse the input value and accept it only
when it is a number and non-negative, point-updating the budgets map. -/
def updateBudget (budgets : Category → ℚ) (category : Category)
    (value : String) : Category → ℚ :=
  match parseFloat value with
  | some newValue =>
      if 0 ≤ newValue then
        fun c => if c = category then newValue else budgets c
      else budgets
  | none => budgets

/-- The seeded budget limits (the initial value of the `budgets` state). -/
def defaultBudgets : Category → ℚ
  | .food => 300
  | .housing => 800
  | .transportation => 150
  | .utilities => 200
  | .entertainment => 100
  | .healthcare => 150
  | .shopping => 200
  | .other => 100

/-- The `useLocalStorage` initial read:
`item ? JSON.parse(item) : initialValue`, with a parse failure caught and
replaced by `initialValue`.  `item` is `none` when the key is absent; an
empty stored string is falsy and also yields `initialValue`. -/
def loadStored {α : Type} (parse : String → Option α) (item : Option String)
    (initialValue : α) : α :=
  match item with
  | none => initialValue
  | some s => if s = "" then initialValue else (parse s).getD initialValue

/-- The `currentMonthExpenses` filter: keep the transactions whose date
falls in the selected `(month, year)`. -/
def currentMonthExpenses (expenses : List Transaction) (currentMonth : ℕ)
    (currentYear : ℤ) : List Transaction :=
  expenses.filter (fun e =>
    decide (e.date.month = currentMonth ∧ e.date.year = currentYear))

/-- The `reduce((sum, e) => sum + e.amount, 0)` aggregation. -/
def sumAmounts (l : List Transaction) : ℚ :=
  l.foldl (fun sum e => sum + e.amount) 0

/-- `totalIncome`: sum of the month's income amounts. -/
def totalIncome (expenses : List Transaction) (m : ℕ) (y : ℤ) : ℚ :=
  sumAmounts ((currentMonthExpenses expenses m y).filter
    (fun e => decide (e.type = TxType.income)))

/-- `totalExpenses`: sum of the month's expense amounts. -/
def totalExpenses (expenses : List Transaction) (m : ℕ) (y : ℤ) : ℚ :=
  sumAmounts ((currentMonthExpenses expenses m y).filter
    (fun e => decide (e.type = TxType.expense)))

/-- `balance = totalIncome - totalExpenses`. -/
def balance (expenses : List Transaction) (m : ℕ) (y : ℤ) : ℚ :=
  totalIncome expenses m y - totalExpenses expenses m y

/-- `categoryTotals[cat]`: the month's expense spend in one category. -/
def categoryTotal (expenses : List Transaction) (m : ℕ) (y : ℤ)
    (cat : Category) : ℚ :=
  sumAmounts ((currentMonthExpenses expenses m y).filter
    (fun e => decide (e.category = cat ∧ e.type = TxType.expense)))

/-- `categoryPercentages[cat] = budgets[cat] > 0 ? spent / limit * 100 : 0`. -/
def categoryPercentage (expenses : List Transaction) (budgets : Category → ℚ)
    (m : ℕ) (y : ℤ) (cat : Category) : ℚ :=
  if budgets cat > 0 then categoryTotal expenses m y cat / budgets cat * 100
  else 0

/-- The three visual states of a category's budget bar. -/
inductive BudgetStatus where
  | overBudget
  | warning
  | normal
deriving DecidableEq

/-- The progress-bar classification:
`percentage > 100 ? red : percentage > 75 ? orange : green`. -/
def classifyStatus (percentage : ℚ) : BudgetStatus :=
  if percentage > 100 then .overBudget
  else if percentage > 75 then .warning
  else .normal

/-- The backward month-stepper: month 0 wraps to month 11 of the previous
year, otherwise the month decrements. -/
def stepBackward (currentMonth : ℕ) (currentYear : ℤ) : ℕ × ℤ :=
  if currentMonth = 0 then (11, currentYear - 1)
  else (currentMonth - 1, currentYear)

/-- The forward month-stepper: month 11 wraps to month 0 of the next year,
otherwise the month increments. -/
def stepForward (currentMonth : ℕ) (currentYear : ℤ) : ℕ × ℤ :=
  if currentMonth = 11 then (0, currentYear + 1)
  else (currentMonth + 1, currentYear)

/-! ## Helper lemmas -/

/-- The `reduce`-style fold of amounts, with an arbitrary accumulator. -/
theorem foldl_add_amount (l : List Transaction) (init : ℚ) :
    l.foldl (fun sum e => sum + e.amount) init
      = init + (l.map Transaction.amount).sum := by
  induction l generalizing init with
  | nil => simp
  | cons e t ih => simp [List.foldl_cons, ih, List.sum_cons]; ring

/-- `sumAmounts` is the sum of the mapped amounts. -/
theorem sumAmounts_eq_sum_map (l : List Transaction) :
    sumAmounts l = (l.map Transaction.amount).sum := by
  unfold sumAmounts
  rw [foldl_add_amount, zero_add]

/-- An `if` whose two branches are both `some` is always `isSome`. -/
theorem isSome_ite_some {α : Type} (p : Prop) [Decidable p] (x y : α) :
    (if p then some x else some y).isSome = true := by
  by_cases h : p
  · rw [if_pos h]; rfl
  · rw [if_neg h]; rfl

/-- A digit is not one of the whitespace characters `parseFloat` skips. -/
theorem jsWhitespace_of_isDigit (c : Char) (h : c.isDigit = true) :
    jsWhitespace c = false := by
  unfold jsWhitespace
  have h1 : ¬ (c = ' ') := fun hc => absurd h (by subst hc; decide)
  have h2 : ¬ (c = '\t') := fun hc => absurd h (by subst hc; decide)
  have h3 : ¬ (c = '\n') := fun hc => absurd h (by subst hc; decide)
  have h4 : ¬ (c = '\r') := fun hc => absurd h (by subst hc; decide)
  have h5 : ¬ (c = '\x0b') := fun hc => absurd h (by subst hc; decide)
  have h6 : ¬ (c = '\x0c') := fun hc => absurd h (by subst hc; decide)
  simp [h1, h2, h3, h4, h5, h6]

/-- A string that starts with a digit is never parsed to `NaN`: the digit
run is non-empty, so `parseFloat` returns a number. -/
theorem parseFloat_isSome_of_leading_digit (c : Char) (t : List Char)
    (h : c.isDigit = true) :
    (parseFloat (String.mk (c :: t))).isSome = true := by
  have hw : jsWhitespace c = false := jsWhitespace_of_isDigit c h
  have hp : ¬ (c = '+') := fun hc => absurd h (by subst hc; decide)
  have hm : ¬ (c = '-') := fun hc => absurd h (by subst hc; decide)
  have hbp : (some c == some '+') = false := by
    simp only [beq_eq_false_iff_ne, ne_eq, Option.some.injEq]
    exact hp
  have hbm : (some c == some '-') = false := by
    simp only [beq_eq_false_iff_ne, ne_eq, Option.some.injEq]
    exact hm
  simp only [parseFloat, String.toList, List.dropWhile_cons, hw,
    Bool.false_eq_true, if_false, List.head?_cons, hbp, hbm, Bool.or_self,
    List.takeWhile_cons, h, if_true, List.isEmpty_cons, Bool.false_and]
  exact isSome_ite_some _ _ _

/-! ## Claim theorems -/

/-- C3: the budget status classification is over-budget iff
`percentage > 100`, warning iff `75 < percentage ≤ 100`, and normal
otherwise; in particular a single 800 expense in `housing` against the
default limit 800 gives percentage exactly 100, classified warning rather
than over-budget. -/
theorem C3_threshold_classification :
    (∀ p : ℚ,
      (classifyStatus p = BudgetStatus.overBudget ↔ 100 < p) ∧
      (classifyStatus p = BudgetStatus.warning ↔ 75 < p ∧ p ≤ 100) ∧
      (classifyStatus p = BudgetStatus.normal ↔ p ≤ 75)) ∧
    categoryPercentage
      [{ id := 1, description := "Rent", amount := 800,
         category := Category.housing, type := TxType.expense,
         date := ⟨2, 2024⟩, updatedAt := none }]
      defaultBudgets 2 2024 Category.housing = 100 ∧
    classifyStatus (categoryPercentage
      [{ id := 1, description := "Rent", amount := 800,
         category := Category.housing, type := TxType.expense,
         date := ⟨2, 2024⟩, updatedAt := none }]
      defaultBudgets 2 2024 Category.housing) = BudgetStatus.warning := by
  refine ⟨fun p => ?_, by with_unfolding_all rfl, by with_unfolding_all rfl⟩
  unfold classifyStatus
  by_cases h1 : p > 100
  · rw [if_pos h1]
    exact ⟨⟨fun _ => h1, fun _ => rfl⟩,
      ⟨fun h => BudgetStatus.noConfusion h, fun h => absurd h1 (not_lt.2 h.2)⟩,
      ⟨fun h => BudgetStatus.noConfusion h,
       fun h => absurd h (not_le.2 (lt_trans (by norm_num) h1))⟩⟩
  · rw [if_neg h1]
    by_cases h2 : p > 75
    · rw [if_pos h2]
      exact ⟨⟨fun h => BudgetStatus.noConfusion h, fun h => absurd h h1⟩,
        ⟨fun _ => ⟨h2, not_lt.1 h1⟩, fun _ => rfl⟩,
        ⟨fun h => BudgetStatus.noConfusion h, fun h => absurd h2 (not_lt.2 h)⟩⟩
    · rw [if_neg h2]
      exact ⟨⟨fun h => BudgetStatus.noConfusion h, fun h => absurd h h1⟩,
        ⟨fun h => BudgetStatus.noConfusion h, fun h => absurd h.1 h2⟩,
        ⟨fun _ => not_lt.1 h2, fun _ => rfl⟩⟩

/-- C4: a category whose budget limit is 0 always gets percentage 0; the
guarded branch never divides by the limit. -/
theorem C4_zero_limit_percentage (expenses : List Transaction)
    (budgets : Category → ℚ) (m : ℕ) (y : ℤ) (cat : Category)
    (h : budgets cat = 0) :
    categoryPercentage expenses budgets m y cat = 0 := by
  unfold categoryPercentage
  rw [h]
  exact if_neg (lt_irrefl 0)

/-- Witness for C4: a transaction with positive spend in a zero-limit
category still reports percentage 0. -/
theorem C4_zero_limit_percentage_witness :
    categoryPercentage
      [{ id := 1, description := "Bus", amount := 42,
         category := Category.transportation, type := TxType.expense,
         date := ⟨0, 2024⟩, updatedAt := none }]
      (fun _ => 0) 0 2024 Category.transportation = 0 :=
  C4_zero_limit_percentage _ _ _ _ _ rfl

/-- C5: for every transaction list and selected month,
`balance = totalIncome - totalExpense`, where the totals are the sums of
the amounts of the month-filtered income (resp. expense) transactions. -/
theorem C5_balance_identity (expenses : List Transaction) (m : ℕ) (y : ℤ) :
    balance expenses m y =
      (((currentMonthExpenses expenses m y).filter
          (fun e => decide (e.type = TxType.income))).map
        Transaction.amount).sum
      - (((currentMonthExpenses expenses m y).filter
          (fun e => decide (e.type = TxType.expense))).map
        Transaction.amount).sum := by
  unfold balance totalIncome totalExpenses
  rw [sumAmounts_eq_sum_map, sumAmounts_eq_sum_map]

/-- C8: stepping back from month 0 wraps to month 11 of the previous year
and otherwise decrements the month; stepping forward from month 11 wraps
to month 0 of the next year and otherwise increments the month; every year
value is accepted. -/
theorem C8_month_wraparound :
    (∀ y : ℤ, stepBackward 0 y = (11, y - 1)) ∧
    (∀ (m : ℕ) (y : ℤ), m ≠ 0 → stepBackward m y = (m - 1, y)) ∧
    (∀ y : ℤ, stepForward 11 y = (0, y + 1)) ∧
    (∀ (m : ℕ) (y : ℤ), m ≠ 11 → stepForward m y = (m + 1, y)) := by
  refine ⟨fun y => rfl, fun m y h => ?_, fun y => rfl, fun m y h => ?_⟩
  · unfold stepBackward
    rw [if_neg h]
  · unfold stepForward
    rw [if_neg h]

/-- Witness for C8: stepping in the middle of a year moves by one month. -/
theorem C8_month_wraparound_witness :
    stepBackward 5 2024 = (4, 2024) ∧ stepForward 5 2024 = (6, 2024) :=
  ⟨C8_month_wraparound.2.1 5 2024 (by decide),
   C8_month_wraparound.2.2.2 5 2024 (by decide)⟩

/-- C1 counterexample: the amount string `"-5"` parses to the negative
number `-5`, yet `handleAddExpense` appends the transaction — the code
never checks the sign, so the claimed "non-negative" half of the gate does
not hold. -/
theorem C1_negative_amount_counterexample :
    parseFloat "-5" = some (-5) ∧ ((-5 : ℚ) < 0) ∧
    handleAddExpense ⟨"Rent", "-5", Category.housing, TxType.expense⟩ 7
        ⟨2, 2024⟩ []
      = [{ id := 7, description := "Rent", amount := -5,
           category := Category.housing, type := TxType.expense,
           date := ⟨2, 2024⟩, updatedAt := none }] :=
  ⟨by with_unfolding_all rfl, by norm_num, by with_unfolding_all rfl⟩

/-- C1 (amended): a new transaction is appended if and only if the trimmed
description is non-empty, the amount string is non-empty and `parseFloat`
yields a number (which may be negative — no sign check); otherwise the call
silently leaves the ledger unchanged. -/
theorem C1_add_validation_gate (fs : FormState) (now : ℕ) (d : DateVal)
    (state : List Transaction) :
    (handleAddExpense fs now d state
        = state ++ [{ id := now, description := fs.description,
                      amount := (parseFloat fs.amount).getD 0,
                      category := fs.category, type := fs.type,
                      date := d, updatedAt := none }]
      ↔ addGate fs) ∧
    (¬ addGate fs → handleAddExpense fs now d state = state) := by
  have hno : ¬ addGate fs → handleAddExpense fs now d state = state := by
    intro h
    unfold handleAddExpense
    rw [if_neg h]
  refine ⟨⟨fun heq => ?_, fun h => ?_⟩, hno⟩
  · by_contra hg
    rw [hno hg] at heq
    have hlen := congrArg List.length heq
    simp at hlen
  · unfold handleAddExpense
    rw [if_pos h]
    rfl

/-- Witness for C1: a well-formed add appends its record. -/
theorem C1_add_validation_gate_witness :
    handleAddExpense ⟨"Lunch", "12.5", Category.food, TxType.expense⟩ 3
        ⟨4, 2024⟩ []
      = [] ++ [{ id := 3, description := "Lunch",
                 amount := (parseFloat "12.5").getD 0,
                 category := Category.food, type := TxType.expense,
                 date := ⟨4, 2024⟩, updatedAt := none }] :=
  (C1_add_validation_gate ⟨"Lunch", "12.5", Category.food, TxType.expense⟩
      3 ⟨4, 2024⟩ []).1.mpr
    ⟨by decide, by decide, by with_unfolding_all rfl⟩

/-- C2 counterexample: ids come from `Date.now()`, so a valid add performed
in the same millisecond as an existing record reuses its id — the new
transaction's id collides with an id already in the ledger. -/
theorem C2_id_collision_counterexample :
    handleAddExpense ⟨"Coffee", "3", Category.food, TxType.expense⟩ 5
        ⟨0, 2024⟩
        [{ id := 5, description := "Tea", amount := 2,
           category := Category.food, type := TxType.expense,
           date := ⟨0, 2024⟩, updatedAt := none }]
      = [{ id := 5, description := "Tea", amount := 2,
           category := Category.food, type := TxType.expense,
           date := ⟨0, 2024⟩, updatedAt := none },
         { id := 5, description := "Coffee", amount := 3,
           category := Category.food, type := TxType.expense,
           date := ⟨0, 2024⟩, updatedAt := none }] ∧
    (handleAddExpense ⟨"Coffee", "3", Category.food, TxType.expense⟩ 5
        ⟨0, 2024⟩
        [{ id := 5, description := "Tea", amount := 2,
           category := Category.food, type := TxType.expense,
           date := ⟨0, 2024⟩, updatedAt := none }]).map Transaction.id
      = [5, 5] :=
  ⟨by with_unfolding_all rfl, by with_unfolding_all rfl⟩

/-- C2 (amended): when the creation timestamp is strictly larger than
every id already stored — i.e. the previous adds happened at earlier
milliseconds — a valid add appends a record whose id is fresh. -/
theorem C2_fresh_id_unique (fs : FormState) (now : ℕ) (d : DateVal)
    (state : List Transaction) (hgate : addGate fs)
    (hmono : ∀ t ∈ state, t.id < now) :
    ∃ tx, handleAddExpense fs now d state = state ++ [tx] ∧ tx.id = now ∧
      ∀ t ∈ state, t.id ≠ tx.id := by
  refine ⟨{ id := now, description := fs.description,
            amount := (parseFloat fs.amount).getD 0,
            category := fs.category, type := fs.type,
            date := d, updatedAt := none }, ?_, rfl, ?_⟩
  · unfold handleAddExpense
    rw [if_pos hgate]
    rfl
  · intro t ht
    exact Nat.ne_of_lt (hmono t ht)

/-- Witness for C2: adding at a later timestamp than the stored record
yields a fresh id. -/
theorem C2_fresh_id_unique_witness :
    ∃ tx, handleAddExpense ⟨"Tea", "2", Category.food, TxType.expense⟩ 9
        ⟨0, 2024⟩
        [{ id := 3, description := "Juice", amount := 4,
           category := Category.food, type := TxType.expense,
           date := ⟨0, 2024⟩, updatedAt := none }]
      = [{ id := 3, description := "Juice", amount := 4,
           category := Category.food, type := TxType.expense,
           date := ⟨0, 2024⟩, updatedAt := none }] ++ [tx] ∧ tx.id = 9 ∧
      ∀ t ∈ ([{ id := 3, description := "Juice", amount := 4,
                category := Category.food, type := TxType.expense,
                date := ⟨0, 2024⟩, updatedAt := none }] : List Transaction),
        t.id ≠ tx.id :=
  C2_fresh_id_unique ⟨"Tea", "2", Category.food, TxType.expense⟩ 9 ⟨0, 2024⟩
    [{ id := 3, description := "Juice", amount := 4,
       category := Category.food, type := TxType.expense,
       date := ⟨0, 2024⟩, updatedAt := none }]
    ⟨by decide, by decide, by with_unfolding_all rfl⟩
    (by intro t ht; rw [List.mem_singleton] at ht; rw [ht]; decide)

/-- C6 counterexample: the update intent carries no `date`, so the stored
record's `date` survives the edit — two ledgers whose only difference is
the matching record's `date` still differ after the same valid update,
refuting full field replacement of everything but `id`. -/
theorem C6_date_preserved_counterexample :
    (updateExpense ⟨"New", "7", Category.shopping, TxType.income⟩ (some 5)
        99
        [{ id := 5, description := "Old", amount := 1,
           category := Category.food, type := TxType.expense,
           date := ⟨0, 2020⟩, updatedAt := none }]).map
      (fun e => e.date) = [⟨0, 2020⟩] ∧
    (updateExpense ⟨"New", "7", Category.shopping, TxType.income⟩ (some 5)
        99
        [{ id := 5, description := "Old", amount := 1,
           category := Category.food, type := TxType.expense,
           date := ⟨3, 2021⟩, updatedAt := none }]).map
      (fun e => e.date) = [⟨3, 2021⟩] ∧
    updateExpense ⟨"New", "7", Category.shopping, TxType.income⟩ (some 5) 99
        [{ id := 5, description := "Old", amount := 1,
           category := Category.food, type := TxType.expense,
           date := ⟨0, 2020⟩, updatedAt := none }]
      ≠ updateExpense ⟨"New", "7", Category.shopping, TxType.income⟩
        (some 5) 99
        [{ id := 5, description := "Old", amount := 1,
           category := Category.food, type := TxType.expense,
           date := ⟨3, 2021⟩, updatedAt := none }] := by
  have hA : (updateExpense ⟨"New", "7", Category.shopping, TxType.income⟩
      (some 5) 99
      [{ id := 5, description := "Old", amount := 1,
         category := Category.food, type := TxType.expense,
         date := ⟨0, 2020⟩, updatedAt := none }]).map
        (fun e => e.date) = [⟨0, 2020⟩] := by with_unfolding_all rfl
  have hB : (updateExpense ⟨"New", "7", Category.shopping, TxType.income⟩
      (some 5) 99
      [{ id := 5, description := "Old", amount := 1,
         category := Category.food, type := TxType.expense,
         date := ⟨3, 2021⟩, updatedAt := none }]).map
        (fun e => e.date) = [⟨3, 2021⟩] := by with_unfolding_all rfl
  refine ⟨hA, hB, fun h => ?_⟩
  have hmap := congrArg (List.map (fun e => e.date)) h
  rw [hA, hB] at hmap
  exact absurd hmap (by decide)

/-- C6 (amended): a valid update replaces exactly the form-carried fields
(description, amount, category, type) of every record matching the edited
id, sets `updatedAt` to the edit timestamp, and preserves `id` and `date`;
other records are untouched. -/
theorem C6_update_replaces_form_fields (fs : FormState) (i : ℕ)
    (nowEdit : ℕ) (state : List Transaction) (hgate : addGate fs)
    (hi : i ≠ 0) :
    updateExpense fs (some i) nowEdit state
      = state.map (fun e =>
          if e.id = i then
            { e with description := fs.description,
                     amount := (parseFloat fs.amount).getD 0,
                     category := fs.category, type := fs.type,
                     updatedAt := some nowEdit }
          else e) := by
  unfold updateExpense
  rw [if_pos (⟨hgate, hi⟩ : addGate fs ∧ idTruthy (some i))]
  rfl

/-- Witness for C6: a concrete valid edit rewrites the form fields and
keeps the record's date. -/
theorem C6_update_replaces_form_fields_witness :
    updateExpense ⟨"New", "7", Category.shopping, TxType.income⟩ (some 5) 99
        [{ id := 5, description := "Old", amount := 1,
           category := Category.food, type := TxType.expense,
           date := ⟨0, 2020⟩, updatedAt := none }]
      = [{ id := 5, description := "Old", amount := 1,
           category := Category.food, type := TxType.expense,
           date := ⟨0, 2020⟩, updatedAt := none }].map (fun e =>
          if e.id = 5 then
            { e with description := "New",
                     amount := (parseFloat "7").getD 0,
                     category := Category.shopping, type := TxType.income,
                     updatedAt := some 99 }
          else e) :=
  C6_update_replaces_form_fields ⟨"New", "7", Category.shopping,
      TxType.income⟩ 5 99 _
    ⟨by decide, by decide, by with_unfolding_all rfl⟩ (by decide)

/-- C7: `UPDATE_EXPENSE` rewrites, on every record whose id matches,
exactly the fields present in the updates object, keeps each absent field,
leaves records with other ids untouched, and is a no-op on the whole list
when no record carries the id. -/
theorem C7_update_merge_frame (state : List Transaction) (i : ℕ)
    (u : Updates) :
    List.Forall₂ (fun e e' =>
        (e.id = i →
          e'.id = e.id ∧
          e'.description = u.description.getD e.description ∧
          e'.amount = u.amount.getD e.amount ∧
          e'.category = u.category.getD e.category ∧
          e'.type = u.type.getD e.type ∧
          e'.date = u.date.getD e.date ∧
          e'.updatedAt = (match u.updatedAt with
            | some t => some t
            | none => e.updatedAt)) ∧
        (e.id ≠ i → e' = e))
      state (expenseReducer state (.updateExpense i u)) ∧
    ((∀ e ∈ state, e.id ≠ i) →
      expenseReducer state (.updateExpense i u) = state) := by
  constructor
  · simp only [expenseReducer]
    induction state with
    | nil => exact List.Forall₂.nil
    | cons e t ih =>
      rw [List.map_cons]
      refine List.Forall₂.cons ⟨fun hid => ?_, fun hid => if_neg hid⟩ ih
      rw [if_pos hid]
      exact ⟨rfl, rfl, rfl, rfl, rfl, rfl, rfl⟩
  · intro h
    simp only [expenseReducer]
    rw [List.map_congr_left (fun e he => if_neg (h e he))]
    exact List.map_id state

/-- Witness for C7: an update aimed at an id that is not in the ledger
leaves the ledger exactly as it was. -/
theorem C7_update_merge_frame_witness :
    expenseReducer
        [{ id := 1, description := "Tea", amount := 2,
           category := Category.food, type := TxType.expense,
           date := ⟨0, 2024⟩, updatedAt := none }]
        (Action.updateExpense 9
          ⟨some "X", none, none, none, none, none⟩)
      = [{ id := 1, description := "Tea", amount := 2,
           category := Category.food, type := TxType.expense,
           date := ⟨0, 2024⟩, updatedAt := none }] :=
  (C7_update_merge_frame _ 9 _).2 (by decide)

/-- C9: on load, an absent key or a blob whose parse fails falls back to
the supplied initial value — the empty transaction list for `expenses` and
the documented default budget mapping (food 300, housing 800,
transportation 150, utilities 200, entertainment 100, healthcare 150,
shopping 200, other 100) for `budgets`; the failure is swallowed. -/
theorem C9_load_fallback :
    (∀ (α : Type) (parse : String → Option α) (initialValue : α),
        loadStored parse none initialValue = initialValue) ∧
    (∀ (α : Type) (parse : String → Option α) (initialValue : α)
        (s : String), parse s = none →
        loadStored parse (some s) initialValue = initialValue) ∧
    defaultBudgets Category.food = 300 ∧
    defaultBudgets Category.housing = 800 ∧
    defaultBudgets Category.transportation = 150 ∧
    defaultBudgets Category.utilities = 200 ∧
    defaultBudgets Category.entertainment = 100 ∧
    defaultBudgets Category.healthcare = 150 ∧
    defaultBudgets Category.shopping = 200 ∧
    defaultBudgets Category.other = 100 := by
  refine ⟨fun α p i => rfl, fun α p i s h => ?_,
    rfl, rfl, rfl, rfl, rfl, rfl, rfl, rfl⟩
  show (if s = "" then i else (p s).getD i) = i
  by_cases hs : s = ""
  · rw [if_pos hs]
  · rw [if_neg hs, h]
    rfl

/-- Witness for C9: a corrupted blob (parser yielding `none`) leaves the
expenses list empty and the budgets at their defaults. -/
theorem C9_load_fallback_witness :
    loadStored (fun _ => (none : Option (List Transaction)))
      (some "corrupt") ([] : List Transaction) = [] ∧
    loadStored (fun _ => (none : Option (Category → ℚ)))
      (some "corrupt") defaultBudgets = defaultBudgets :=
  ⟨C9_load_fallback.2.1 _ _ _ "corrupt" rfl,
   C9_load_fallback.2.1 _ _ _ "corrupt" rfl⟩

/-- C10: amount validation is prefix parsing — any string starting with a
digit is accepted, so `"12abc"` is taken as `12` by the add intent, by the
update intent and by `setLimit`, while `"abc"` (no leading numeral) is
rejected everywhere. -/
theorem C10_prefix_parse_acceptance :
    (∀ (c : Char) (t : List Char), c.isDigit = true →
        (parseFloat (String.mk (c :: t))).isSome = true) ∧
    parseFloat "12abc" = some 12 ∧
    parseFloat "abc" = none ∧
    handleAddExpense ⟨"Snack", "12abc", Category.food, TxType.expense⟩ 1
        ⟨0, 2024⟩ []
      = [{ id := 1, description := "Snack", amount := 12,
           category := Category.food, type := TxType.expense,
           date := ⟨0, 2024⟩, updatedAt := none }] ∧
    handleAddExpense ⟨"Snack", "abc", Category.food, TxType.expense⟩ 1
        ⟨0, 2024⟩ [] = [] ∧
    updateExpense ⟨"Snack", "12abc", Category.food, TxType.expense⟩
        (some 7) 9
        [{ id := 7, description := "Old", amount := 1,
           category := Category.food, type := TxType.expense,
           date := ⟨0, 2024⟩, updatedAt := none }]
      = [{ id := 7, description := "Snack", amount := 12,
           category := Category.food, type := TxType.expense,
           date := ⟨0, 2024⟩, updatedAt := some 9 }] ∧
    updateBudget defaultBudgets Category.food "12abc" Category.food = 12 ∧
    (∀ cat, updateBudget defaultBudgets Category.food "abc" cat
      = defaultBudgets cat) :=
  ⟨parseFloat_isSome_of_leading_digit,
   by with_unfolding_all rfl,
   rfl,
   by with_unfolding_all rfl,
   by with_unfolding_all rfl,
   by with_unfolding_all rfl,
   by with_unfolding_all rfl,
   fun cat => rfl⟩

/-- Witness for C10: the digit-led string `"1x"` is accepted by the
parser. -/
theorem C10_prefix_parse_acceptance_witness :
    (parseFloat (String.mk ('1' :: ['x']))).isSome = true :=
  C10_prefix_parse_acceptance.1 '1' ['x'] (by decide)

end BudgetTracker
